import Mathlib

set_option linter.unusedVariables false

/-!
Verification of django-simple-history against its specification.

Part 1 embeds `register` from `simple_history/__init__.py`.
Part 2 embeds the bulk-history recording path
(`bulk_create_with_history` / `bulk_update_with_history` /
`bulk_history_create`); that code lives in `simple_history/utils.py`,
which is not part of the sources at hand, so those definitions are
modelled from the specification and from the behaviour documented in
`simple_history/tests/tests/test_utils_performance.py`.
-/

namespace SimpleHistory

/-! ## Part 1: `register` (src/simple_history/__init__.py) -/

/-- A Django model class as seen by `register`: its natural key
(as computed by `utils.natural_key_from_model`), its `__module__`,
and the natural key of `model._meta.concrete_model` when that
attribute is set (Python `None` becomes `none`). -/
structure Model where
  naturalKey : String
  module : String
  concreteModelKey : Option String
  deriving DecidableEq, Repr

/-- Modelled from the spec: `utils.natural_key_from_model` is defined in
`simple_history/utils.py`, which is not among the sources; it is a pure
introspection of the model, modelled as an abstract key carried by the
model value. -/
def natural_key_from_model (m : Model) : String :=
  m.naturalKey

/-- Python truthiness of the `app` argument (`None` and the empty
string are falsy; any other string is truthy). -/
def pyTruthy : Option String → Bool
  | none => false
  | some s => !s.isEmpty

/-- The default value of the `manager_name` keyword argument of
`register` in `simple_history/__init__.py`. -/
def registerDefaultManagerName : String := "history"

/-- The records class used by `register` when `records_class is None`
(`models.HistoricalRecords`), identified by name. -/
def defaultRecordsClassName : String := "HistoricalRecords"

/-- The historical-records object built inside `register`: which class
was instantiated and the attributes `register` sets on it. -/
structure HistoricalRecordsObj where
  recordsClass : String
  managerName : String
  module : String
  concreteNaturalKey : String
  deriving DecidableEq, Repr

/-- The observable state `register` interacts with:
`models.registered_models` (keyed by natural key), the records objects
that have been instantiated and finalized, and the models that had
extra methods added to them. -/
structure RegistryState where
  registeredModels : List String
  createdRecords : List HistoricalRecordsObj
  modelsWithExtraMethods : List String
  deriving DecidableEq, Repr

/-- `register(model, app=None, manager_name='history', records_class=None)`
from `simple_history/__init__.py`.

The body guards on `natural_key not in models.registered_models`; when
the key is present nothing at all runs.  Otherwise it instantiates
`records_class` (defaulting to `models.HistoricalRecords`), sets
`manager_name`, sets `module` to `app and ("%s.models" % app) or
model.__module__`, calls `records.add_extra_methods(model)`, sets
`concrete_natural_key` from `model._meta.concrete_model or model`, and
calls `records.finalize(model)`.  `add_extra_methods` and `finalize`
live in `simple_history/models.py`, which is not among the sources;
modelled from the spec ("transparently creates a shadow historical
model" for the registered model), `finalize` completes the historical
model and enters the natural key into the registry, and
`add_extra_methods` is recorded as having touched the model. -/
def register (st : RegistryState) (model : Model) (app : Option String)
    (managerName : String) (recordsClass : Option String) : RegistryState :=
  let naturalKey := natural_key_from_model model
  if naturalKey ∈ st.registeredModels then
    st
  else
    let rc := match recordsClass with
      | none => defaultRecordsClassName
      | some c => c
    let records : HistoricalRecordsObj :=
      { recordsClass := rc
        managerName := managerName
        module :=
          if pyTruthy app then (app.getD "") ++ ".models" else model.module
        concreteNaturalKey :=
          match model.concreteModelKey with
          | some k => k
          | none => natural_key_from_model model }
    { registeredModels := naturalKey :: st.registeredModels
      createdRecords := records :: st.createdRecords
      modelsWithExtraMethods :=
        natural_key_from_model model :: st.modelsWithExtraMethods }

/-! ## Part 2: the bulk-history recording path

Modelled from the spec: `bulk_create_with_history`,
`bulk_update_with_history` and the underlying `bulk_history_create`
live in `simple_history/utils.py`, which is not among the sources.
Per the spec, the library "records a snapshot row on every create,
update, and delete of the tracked model's records, including which
actor performed the change when that information is available", and
the bulk path's performance work "is limited to hoisting repeated
computations (timestamp capture, field-name introspection, user
resolution) out of per-row loops".  The docstrings of
`tests/tests/test_utils_performance.py` pin the hoisted values:
`timezone.now()`, `tracked_field_attnames`, the has-history-relation
check, and the default-user resolution.

Time is modelled by a clock stream: the i-th call to `timezone.now()`
during one bulk operation returns `clock i`. -/

/-- A persisted tracked object: primary key and attribute values
(attname to value). -/
structure Obj where
  pk : Nat
  attrs : List (String × Nat)
  deriving DecidableEq, Repr

/-- Reading a field attname off an object (absent names read as 0;
tracked models only ever read their own attnames). -/
def getAttr (o : Obj) (f : String) : Nat :=
  match o.attrs.lookup f with
  | some v => v
  | none => 0

/-- The introspected shape of a tracked model: its tracked field
attnames and whether it has a history relation (the precondition the
bulk helpers check). -/
structure TrackedModel where
  trackedFieldAttnames : List String
  hasHistoryRelation : Bool
  deriving DecidableEq, Repr

/-- One row of the shadow historical model: the tracked object's pk,
the history type ("+" create, "~" update, "-" delete), the recorded
actor, the recorded timestamp, and the snapshot of the tracked
fields. -/
structure HistoricalRow where
  objPk : Nat
  historyType : String
  historyUser : Option Nat
  historyDate : Nat
  values : List (String × Nat)
  deriving DecidableEq, Repr

/-- Everything of a historical row except its timestamp. -/
structure RowSansDate where
  objPk : Nat
  historyType : String
  historyUser : Option Nat
  values : List (String × Nat)
  deriving DecidableEq, Repr

/-- Drop the timestamp component of a historical row. -/
def rowSansDate (r : HistoricalRow) : RowSansDate :=
  { objPk := r.objPk
    historyType := r.historyType
    historyUser := r.historyUser
    values := r.values }

/-- Resolution of the actor recorded on a history row: the provided
`default_user` when there is one, otherwise the per-object default
history user (request-middleware lookup, modelled as a function). -/
def resolveHistoryUser (getDefaultUser : Obj → Option Nat)
    (defaultUser : Option Nat) (o : Obj) : Option Nat :=
  match defaultUser with
  | some u => some u
  | none => getDefaultUser o

/-- Build one historical row for object `o`: snapshot of the tracked
fields, the resolved actor, and the given timestamp. -/
def mkHistoricalRow (M : TrackedModel) (getDefaultUser : Obj → Option Nat)
    (defaultUser : Option Nat) (date : Nat) (historyType : String)
    (o : Obj) : HistoricalRow :=
  { objPk := o.pk
    historyType := historyType
    historyUser := resolveHistoryUser getDefaultUser defaultUser o
    historyDate := date
    values := M.trackedFieldAttnames.map fun f => (f, getAttr o f) }

/-- Modelled from the spec: the per-row loop body of the original
(pre-optimization) `bulk_history_create`.  Each iteration re-reads the
clock when `default_date` is `None` (the i-th row's timestamp is the
i-th `timezone.now()` call), re-introspects the tracked field attnames,
and re-resolves the user. -/
def bulkRowsUnoptimized (M : TrackedModel) (getDefaultUser : Obj → Option Nat)
    (clock : Nat → Nat) (historyType : String)
    (defaultUser : Option Nat) (defaultDate : Option Nat) :
    Nat → List Obj → List HistoricalRow
  | _, [] => []
  | i, o :: rest =>
    mkHistoricalRow M getDefaultUser defaultUser
        (defaultDate.getD (clock i)) historyType o ::
      bulkRowsUnoptimized M getDefaultUser clock historyType
        defaultUser defaultDate (i + 1) rest

/-- Modelled from the spec: the original (pre-optimization)
`bulk_history_create` — checks the history relation, then runs the
per-row loop from clock position 0. -/
def bulk_history_create_unoptimized (M : TrackedModel)
    (getDefaultUser : Obj → Option Nat) (clock : Nat → Nat)
    (objs : List Obj) (historyType : String)
    (defaultUser : Option Nat) (defaultDate : Option Nat) :
    List HistoricalRow :=
  if M.hasHistoryRelation then
    bulkRowsUnoptimized M getDefaultUser clock historyType
      defaultUser defaultDate 0 objs
  else
    []

/-- Modelled from the spec: the optimized `bulk_history_create`.
Before the per-row loop it captures `timezone.now()` once, computes
`tracked_field_attnames` once, checks the history relation once, and
resolves the `default_user` branch once; the loop then builds one row
per object. -/
def bulk_history_create (M : TrackedModel)
    (getDefaultUser : Obj → Option Nat) (clock : Nat → Nat)
    (objs : List Obj) (historyType : String)
    (defaultUser : Option Nat) (defaultDate : Option Nat) :
    List HistoricalRow :=
  if M.hasHistoryRelation then
    let now := clock 0
    objs.map (mkHistoricalRow M getDefaultUser defaultUser
      (defaultDate.getD now) historyType)
  else
    []

/-- Fuel-indexed worker for `chunked`; the fuel bounds the number of
chunks and is always instantiated with the list's length, which
suffices for every positive chunk size. -/
def chunkedAux {α : Type} (b : Nat) : Nat → List α → List (List α)
  | _, [] => []
  | 0, x :: rest => [x :: rest]
  | fuel + 1, x :: rest =>
    (x :: rest).take b :: chunkedAux b fuel ((x :: rest).drop b)

/-- Split a list into consecutive chunks of size `b` (the whole list as
one chunk when `b = 0`, which valid batch sizes never hit). -/
def chunked {α : Type} (b : Nat) (xs : List α) : List (List α) :=
  chunkedAux b xs.length xs

/-- A `batch_size` argument is valid when it is `None` or a positive
integer. -/
def validBatch : Option Nat → Prop
  | none => True
  | some b => 0 < b

instance : DecidablePred validBatch := by
  intro b
  cases b <;> simp [validBatch] <;> infer_instance

/-- Modelled from the spec: the underlying ORM bulk insert of the
history rows, batched by `batch_size` ("bulk insert batching" is
delegated to the host ORM); batching only partitions the insert. -/
def insertBatched (batchSize : Option Nat) (rows : List HistoricalRow) :
    List HistoricalRow :=
  match batchSize with
  | none => rows
  | some b => (chunked b rows).flatten

/-- Modelled from the spec: `bulk_create_with_history(objs, model, ...)`
bulk-inserts the new objects through the ORM and records one "+"
history row per created object via `bulk_history_create`; the returned
value is the list of history rows inserted. -/
def bulk_create_with_history (M : TrackedModel)
    (getDefaultUser : Obj → Option Nat) (clock : Nat → Nat)
    (objs : List Obj) (defaultUser : Option Nat)
    (defaultDate : Option Nat) (batchSize : Option Nat) :
    List HistoricalRow :=
  insertBatched batchSize
    (bulk_history_create M getDefaultUser clock objs "+"
      defaultUser defaultDate)

/-- Modelled from the spec: `bulk_update_with_history(objs, model,
fields, ...)` bulk-updates the listed `fields` of the already-persisted
objects through the ORM and records one "~" history row per object via
`bulk_history_create`; the history snapshot always covers all tracked
fields, independent of which `fields` were updated. -/
def bulk_update_with_history (M : TrackedModel)
    (getDefaultUser : Obj → Option Nat) (clock : Nat → Nat)
    (objs : List Obj) (fields : List String) (defaultUser : Option Nat)
    (defaultDate : Option Nat) (batchSize : Option Nat) :
    List HistoricalRow :=
  let _ := fields
  insertBatched batchSize
    (bulk_history_create M getDefaultUser clock objs "~"
      defaultUser defaultDate)

/-- Modelled from the spec: the signal receiver that records a snapshot
on a single save or delete of a tracked record inserts exactly one row
into the historical model (history type "+", "~" or "-"). -/
def create_historical_record (M : TrackedModel)
    (getDefaultUser : Obj → Option Nat) (clock : Nat → Nat) (o : Obj)
    (historyType : String) : List HistoricalRow :=
  if M.hasHistoryRelation then
    [mkHistoricalRow M getDefaultUser none (clock 0) historyType o]
  else
    []

/-- The contents of the historical table after
`bulk_create_with_history` on `objs` followed by
`bulk_update_with_history` on the same objects. -/
def historyAfterCreateThenUpdate (M : TrackedModel)
    (getDefaultUser : Obj → Option Nat) (clock : Nat → Nat)
    (objs : List Obj) (fields : List String)
    (u1 d1 u2 d2 : Option Nat) (b1 b2 : Option Nat) :
    List HistoricalRow :=
  bulk_create_with_history M getDefaultUser clock objs u1 d1 b1 ++
    bulk_update_with_history M getDefaultUser clock objs fields u2 d2 b2

/-! ## Concrete fixtures (mirroring the Poll model of the test suite) -/

/-- The `Poll` model of the test suite: tracked fields `question` and
`pub_date`, with a history relation. -/
def pollModel : TrackedModel :=
  { trackedFieldAttnames := ["question", "pub_date"]
    hasHistoryRelation := true }

/-- No request middleware: no per-object default history user. -/
def noUser : Obj → Option Nat := fun _ => none

/-- A clock that advances by one on every call. -/
def tickClock : Nat → Nat := fun i => i

/-- Two persisted poll objects. -/
def samplePolls : List Obj :=
  [{ pk := 1, attrs := [("question", 11), ("pub_date", 1)] },
   { pk := 2, attrs := [("question", 22), ("pub_date", 2)] }]

/-- The Poll model class as `register` sees it. -/
def pollModelClass : Model :=
  { naturalKey := "tests.poll"
    module := "tests.models"
    concreteModelKey := none }

/-- A registry with nothing registered. -/
def emptyRegistry : RegistryState :=
  { registeredModels := []
    createdRecords := []
    modelsWithExtraMethods := [] }

/-- A registry in which the Poll model is already registered. -/
def pollRegistry : RegistryState :=
  { registeredModels := ["tests.poll"]
    createdRecords := []
    modelsWithExtraMethods := [] }

/-! ## Helper lemmas -/

theorem chunkedAux_flatten {α : Type} (b : Nat) (fuel : Nat)
    (xs : List α) : (chunkedAux b fuel xs).flatten = xs := by
  induction fuel generalizing xs with
  | zero => cases xs <;> simp [chunkedAux]
  | succ n ih =>
    cases xs with
    | nil => rfl
    | cons x rest => simp [chunkedAux, ih]

theorem chunked_flatten {α : Type} (b : Nat) (xs : List α) :
    (chunked b xs).flatten = xs := chunkedAux_flatten b xs.length xs

theorem insertBatched_eq (b : Option Nat) (rows : List HistoricalRow) :
    insertBatched b rows = rows := by
  cases b with
  | none => rfl
  | some n => simp [insertBatched, chunked_flatten]

theorem bulk_history_create_eq (M : TrackedModel) (g : Obj → Option Nat)
    (clock : Nat → Nat) (objs : List Obj) (t : String)
    (u d : Option Nat) (hM : M.hasHistoryRelation = true) :
    bulk_history_create M g clock objs t u d =
      objs.map (mkHistoricalRow M g u (d.getD (clock 0)) t) := by
  simp [bulk_history_create, hM]

theorem bulkRowsUnoptimized_length (M : TrackedModel)
    (g : Obj → Option Nat) (clock : Nat → Nat) (t : String)
    (u d : Option Nat) (i : Nat) (objs : List Obj) :
    (bulkRowsUnoptimized M g clock t u d i objs).length = objs.length := by
  induction objs generalizing i with
  | nil => rfl
  | cons o rest ih => simp [bulkRowsUnoptimized, ih]

theorem bulkRowsUnoptimized_some (M : TrackedModel)
    (g : Obj → Option Nat) (clock : Nat → Nat) (t : String)
    (u : Option Nat) (dd : Nat) (i : Nat) (objs : List Obj) :
    bulkRowsUnoptimized M g clock t u (some dd) i objs =
      objs.map (mkHistoricalRow M g u dd t) := by
  induction objs generalizing i with
  | nil => rfl
  | cons o rest ih => simp [bulkRowsUnoptimized, ih]

theorem rowSansDate_mk (M : TrackedModel) (g : Obj → Option Nat)
    (u : Option Nat) (d1 d2 : Nat) (t : String) (o : Obj) :
    rowSansDate (mkHistoricalRow M g u d1 t o) =
      rowSansDate (mkHistoricalRow M g u d2 t o) := rfl

theorem bulkRowsUnoptimized_sansDate (M : TrackedModel)
    (g : Obj → Option Nat) (clock : Nat → Nat) (t : String)
    (u d : Option Nat) (i : Nat) (objs : List Obj) :
    (bulkRowsUnoptimized M g clock t u d i objs).map rowSansDate =
      objs.map (fun o => rowSansDate (mkHistoricalRow M g u 0 t o)) := by
  induction objs generalizing i with
  | nil => rfl
  | cons o rest ih =>
    simp only [bulkRowsUnoptimized, List.map_cons, ih]
    rw [rowSansDate_mk M g u (d.getD (clock i)) 0 t o]

/-! ## Claims -/

/-- C1: every create, update and delete of a tracked record inserts
exactly one snapshot row into the shadow historical model; in
particular `bulk_create_with_history` on a list of N new objects
followed by `bulk_update_with_history` on those same N objects leaves
exactly 2N historical rows, also when `default_user` and
`default_date` are omitted (`None`). -/
theorem one_history_row_per_change (M : TrackedModel)
    (g : Obj → Option Nat) (clock : Nat → Nat) (objs : List Obj)
    (fields : List String) (u1 d1 u2 d2 : Option Nat)
    (b1 b2 : Option Nat) (o : Obj) (t : String)
    (hM : M.hasHistoryRelation = true) :
    (create_historical_record M g clock o t).length = 1 ∧
    (bulk_create_with_history M g clock objs u1 d1 b1).length
        = objs.length ∧
    (bulk_update_with_history M g clock objs fields u2 d2 b2).length
        = objs.length ∧
    (historyAfterCreateThenUpdate M g clock objs fields
        u1 d1 u2 d2 b1 b2).length = 2 * objs.length := by
  refine ⟨by simp [create_historical_record, hM], ?_, ?_, ?_⟩
  · simp [bulk_create_with_history, insertBatched_eq,
      bulk_history_create_eq M g clock objs "+" u1 d1 hM]
  · simp [bulk_update_with_history, insertBatched_eq,
      bulk_history_create_eq M g clock objs "~" u2 d2 hM]
  · simp only [historyAfterCreateThenUpdate, bulk_create_with_history,
      bulk_update_with_history, insertBatched_eq, List.length_append,
      bulk_history_create_eq M g clock objs "+" u1 d1 hM,
      bulk_history_create_eq M g clock objs "~" u2 d2 hM,
      List.length_map]
    omega

/-- Witness for C1 on the Poll fixtures. -/
theorem one_history_row_per_change_witness :
    (create_historical_record pollModel noUser tickClock
        { pk := 3, attrs := [] } "-").length = 1 ∧
    (bulk_create_with_history pollModel noUser tickClock samplePolls
        none none (some 50)).length = samplePolls.length ∧
    (bulk_update_with_history pollModel noUser tickClock samplePolls
        ["question"] none none (some 50)).length = samplePolls.length ∧
    (historyAfterCreateThenUpdate pollModel noUser tickClock samplePolls
        ["question"] none none none none (some 50) (some 50)).length
        = 2 * samplePolls.length :=
  one_history_row_per_change pollModel noUser tickClock samplePolls
    ["question"] none none none none (some 50) (some 50)
    { pk := 3, attrs := [] } "-" rfl

/-- C2: `bulk_update_with_history` on M already-persisted objects
inserts exactly M audit rows, all with history type "~", one per input
object, whatever `fields` lists for update. -/
theorem bulk_update_one_tilde_row_per_object (M : TrackedModel)
    (g : Obj → Option Nat) (clock : Nat → Nat) (objs : List Obj)
    (fields : List String) (u d : Option Nat) (b : Option Nat)
    (hM : M.hasHistoryRelation = true) :
    (bulk_update_with_history M g clock objs fields u d b).length
        = objs.length ∧
    ∀ r ∈ bulk_update_with_history M g clock objs fields u d b,
      r.historyType = "~" := by
  constructor
  · simp [bulk_update_with_history, insertBatched_eq,
      bulk_history_create_eq M g clock objs "~" u d hM]
  · intro r hr
    simp only [bulk_update_with_history, insertBatched_eq,
      bulk_history_create_eq M g clock objs "~" u d hM,
      List.mem_map] at hr
    obtain ⟨o, _, rfl⟩ := hr
    rfl

/-- Witness for C2 on the Poll fixtures. -/
theorem bulk_update_one_tilde_row_per_object_witness :
    (bulk_update_with_history pollModel noUser tickClock samplePolls
        ["question"] none none (some 50)).length = samplePolls.length ∧
    ({ objPk := 1, historyType := "~", historyUser := none,
       historyDate := 0, values := [("question", 11), ("pub_date", 1)] }
        : HistoricalRow).historyType = "~" :=
  ⟨(bulk_update_one_tilde_row_per_object pollModel noUser tickClock
      samplePolls ["question"] none none (some 50) rfl).1,
   (bulk_update_one_tilde_row_per_object pollModel noUser tickClock
      samplePolls ["question"] none none (some 50) rfl).2
     { objPk := 1, historyType := "~", historyUser := none,
       historyDate := 0, values := [("question", 11), ("pub_date", 1)] }
     (by decide)⟩

/-- C3: when `bulk_update_with_history` is given a non-None
`default_user` and `default_date`, every "~" row it creates records
exactly that user and that date. -/
theorem bulk_update_defaults_recorded (M : TrackedModel)
    (g : Obj → Option Nat) (clock : Nat → Nat) (objs : List Obj)
    (fields : List String) (u d : Nat) (b : Option Nat)
    (r : HistoricalRow)
    (hr : r ∈ bulk_update_with_history M g clock objs fields
        (some u) (some d) b) :
    r.historyUser = some u ∧ r.historyDate = d := by
  simp only [bulk_update_with_history, insertBatched_eq] at hr
  by_cases hM : M.hasHistoryRelation = true
  · rw [bulk_history_create_eq M g clock objs "~" (some u) (some d) hM]
      at hr
    simp only [List.mem_map] at hr
    obtain ⟨o, _, rfl⟩ := hr
    exact ⟨rfl, rfl⟩
  · simp [bulk_history_create, hM] at hr

/-- Witness for C3 on the Poll fixtures. -/
theorem bulk_update_defaults_recorded_witness :
    ({ objPk := 1, historyType := "~", historyUser := some 5,
       historyDate := 9, values := [("question", 11), ("pub_date", 1)] }
        : HistoricalRow).historyUser = some 5 ∧
    ({ objPk := 1, historyType := "~", historyUser := some 5,
       historyDate := 9, values := [("question", 11), ("pub_date", 1)] }
        : HistoricalRow).historyDate = 9 :=
  bulk_update_defaults_recorded pollModel noUser tickClock samplePolls
    ["question"] 5 9 (some 50)
    { objPk := 1, historyType := "~", historyUser := some 5,
      historyDate := 9, values := [("question", 11), ("pub_date", 1)] }
    (by decide)

/-- C4 counterexample: with `default_date` None and a clock that
advances between the per-row `timezone.now()` calls, the original
per-row implementation gives the second row a later timestamp than the
first, while the optimized implementation stamps every row with the
single hoisted timestamp — so the two do not produce exactly the same
history rows on every input. -/
theorem bulk_optimization_not_exact_counterexample :
    bulk_history_create_unoptimized pollModel noUser tickClock
        samplePolls "~" none none ≠
      bulk_history_create pollModel noUser tickClock
        samplePolls "~" none none := by
  decide

/-- C4 (amended): the hoisting is a pure micro-optimization except for
the timestamp when `default_date` is None: with a non-None
`default_date` the optimized implementation produces exactly the same
history rows as the original per-row implementation, and on every
input (including None defaults) the two produce the same rows in the
same order up to the recorded timestamp — same count, same
history_type, same history_user, same field values per row. -/
theorem bulk_optimization_refines (M : TrackedModel)
    (g : Obj → Option Nat) (clock : Nat → Nat) (objs : List Obj)
    (t : String) (u d : Option Nat) :
    (d.isSome = true →
      bulk_history_create_unoptimized M g clock objs t u d =
        bulk_history_create M g clock objs t u d) ∧
    (bulk_history_create_unoptimized M g clock objs t u d).map
        rowSansDate =
      (bulk_history_create M g clock objs t u d).map rowSansDate := by
  constructor
  · intro hd
    obtain ⟨dd, rfl⟩ := Option.isSome_iff_exists.mp hd
    by_cases hM : M.hasHistoryRelation = true
    · rw [bulk_history_create_eq M g clock objs t u (some dd) hM]
      simp [bulk_history_create_unoptimized, hM,
        bulkRowsUnoptimized_some]
    · simp [bulk_history_create_unoptimized, bulk_history_create, hM]
  · by_cases hM : M.hasHistoryRelation = true
    · rw [bulk_history_create_eq M g clock objs t u d hM]
      simp only [bulk_history_create_unoptimized, hM, if_true,
        bulkRowsUnoptimized_sansDate, List.map_map]
      apply List.map_congr_left
      intro o _
      exact (rowSansDate_mk M g u 0 (d.getD (clock 0)) t o)
    · simp [bulk_history_create_unoptimized, bulk_history_create, hM]

/-- Witness for the amended C4 on the Poll fixtures. -/
theorem bulk_optimization_refines_witness :
    bulk_history_create_unoptimized pollModel noUser tickClock
        samplePolls "~" (some 3) (some 9) =
      bulk_history_create pollModel noUser tickClock
        samplePolls "~" (some 3) (some 9) ∧
    (bulk_history_create_unoptimized pollModel noUser tickClock
        samplePolls "~" none none).map rowSansDate =
      (bulk_history_create pollModel noUser tickClock
        samplePolls "~" none none).map rowSansDate :=
  ⟨(bulk_optimization_refines pollModel noUser tickClock samplePolls
      "~" (some 3) (some 9)).1 rfl,
   (bulk_optimization_refines pollModel noUser tickClock samplePolls
      "~" none none).2⟩

/-- C5: the history rows written by `bulk_update_with_history` do not
depend on the batch size: any two positive batch sizes give the same
rows; batching only partitions the underlying bulk insert. -/
theorem bulk_update_batchsize_independent (M : TrackedModel)
    (g : Obj → Option Nat) (clock : Nat → Nat) (objs : List Obj)
    (fields : List String) (u d : Option Nat) (b1 b2 : Nat)
    (h1 : 0 < b1) (h2 : 0 < b2) :
    bulk_update_with_history M g clock objs fields u d (some b1) =
      bulk_update_with_history M g clock objs fields u d (some b2) := by
  simp [bulk_update_with_history, insertBatched_eq]

/-- Witness for C5 on the Poll fixtures. -/
theorem bulk_update_batchsize_independent_witness :
    bulk_update_with_history pollModel noUser tickClock samplePolls
        ["question"] none none (some 50) =
      bulk_update_with_history pollModel noUser tickClock samplePolls
        ["question"] none none (some 100) :=
  bulk_update_batchsize_independent pollModel noUser tickClock
    samplePolls ["question"] none none 50 100 (by decide) (by decide)

/-- C6: when `default_date` is None, all rows created by one call to
the bulk history recorder carry one identical timestamp — the single
clock reading taken before the per-row loop — so two rows of the same
call never carry distinct timestamps. -/
theorem bulk_history_single_timestamp (M : TrackedModel)
    (g : Obj → Option Nat) (clock : Nat → Nat) (objs : List Obj)
    (t : String) (u : Option Nat) (r1 r2 : HistoricalRow)
    (h1 : r1 ∈ bulk_history_create M g clock objs t u none)
    (h2 : r2 ∈ bulk_history_create M g clock objs t u none) :
    r1.historyDate = clock 0 ∧ r1.historyDate = r2.historyDate := by
  by_cases hM : M.hasHistoryRelation = true
  · rw [bulk_history_create_eq M g clock objs t u none hM] at h1 h2
    simp only [List.mem_map] at h1 h2
    obtain ⟨o1, _, rfl⟩ := h1
    obtain ⟨o2, _, rfl⟩ := h2
    exact ⟨rfl, rfl⟩
  · simp [bulk_history_create, hM] at h1

/-- Witness for C6 on the Poll fixtures. -/
theorem bulk_history_single_timestamp_witness :
    ({ objPk := 1, historyType := "~", historyUser := none,
       historyDate := 0, values := [("question", 11), ("pub_date", 1)] }
        : HistoricalRow).historyDate = tickClock 0 ∧
    ({ objPk := 1, historyType := "~", historyUser := none,
       historyDate := 0, values := [("question", 11), ("pub_date", 1)] }
        : HistoricalRow).historyDate =
      ({ objPk := 2, historyType := "~", historyUser := none,
         historyDate := 0,
         values := [("question", 22), ("pub_date", 2)] }
          : HistoricalRow).historyDate :=
  bulk_history_single_timestamp pollModel noUser tickClock samplePolls
    "~" none
    { objPk := 1, historyType := "~", historyUser := none,
      historyDate := 0, values := [("question", 11), ("pub_date", 1)] }
    { objPk := 2, historyType := "~", historyUser := none,
      historyDate := 0, values := [("question", 22), ("pub_date", 2)] }
    (by decide) (by decide)

/-- C7: `register` is idempotent on the registry: when the model's
natural key is already in `models.registered_models` the whole call is
a no-op (no records object instantiated, no extra methods added, state
untouched); only a first call for an unregistered key creates and
finalizes the records object. -/
theorem register_idempotent (st : RegistryState) (m : Model)
    (app : Option String) (mn : String) (rc : Option String) :
    (natural_key_from_model m ∈ st.registeredModels →
      register st m app mn rc = st) ∧
    (natural_key_from_model m ∉ st.registeredModels →
      (register st m app mn rc).createdRecords.length
          = st.createdRecords.length + 1 ∧
      natural_key_from_model m ∈
        (register st m app mn rc).registeredModels) := by
  constructor
  · intro h
    simp [register, h]
  · intro h
    simp [register, h]

/-- Witness for C7 on a concrete registry. -/
theorem register_idempotent_witness :
    register pollRegistry pollModelClass none "history" none
        = pollRegistry ∧
    ((register emptyRegistry pollModelClass none "history"
          none).createdRecords.length
        = emptyRegistry.createdRecords.length + 1 ∧
      natural_key_from_model pollModelClass ∈
        (register emptyRegistry pollModelClass none "history"
          none).registeredModels) :=
  ⟨(register_idempotent pollRegistry pollModelClass none "history"
      none).1 (by decide),
   (register_idempotent emptyRegistry pollModelClass none "history"
      none).2 (by decide)⟩

/-- C8: on a proceeding `register` call the created records object has
`module` equal to "<app>.models" when `app` is truthy and to
`model.__module__` otherwise, `manager_name` equal to the
`manager_name` argument (whose signature default is "history"), and
the default `HistoricalRecords` class when `records_class` is None. -/
theorem register_records_attributes (st : RegistryState) (m : Model)
    (app : Option String) (mn : String) (rc : Option String)
    (h : natural_key_from_model m ∉ st.registeredModels) :
    ∃ r : HistoricalRecordsObj,
      (register st m app mn rc).createdRecords
          = r :: st.createdRecords ∧
      r.managerName = mn ∧
      registerDefaultManagerName = "history" ∧
      (pyTruthy app = true → r.module = (app.getD "") ++ ".models") ∧
      (pyTruthy app = false → r.module = m.module) ∧
      (rc = none → r.recordsClass = defaultRecordsClassName) := by
  refine ⟨{ recordsClass := (match rc with
              | none => defaultRecordsClassName
              | some c => c)
            managerName := mn
            module := if pyTruthy app then (app.getD "") ++ ".models"
              else m.module
            concreteNaturalKey := (match m.concreteModelKey with
              | some k => k
              | none => natural_key_from_model m) },
    ?_, rfl, rfl, ?_, ?_, ?_⟩
  · simp [register, h]
  · intro hp
    simp [hp]
  · intro hp
    simp [hp]
  · intro hrc
    subst hrc
    rfl

/-- Witness for C8 on a concrete call with a truthy app. -/
theorem register_records_attributes_witness :
    ∃ r : HistoricalRecordsObj,
      (register emptyRegistry pollModelClass (some "myapp") "history"
          none).createdRecords = r :: emptyRegistry.createdRecords ∧
      r.managerName = "history" ∧
      registerDefaultManagerName = "history" ∧
      (pyTruthy (some "myapp") = true →
        r.module = ((some "myapp").getD "") ++ ".models") ∧
      (pyTruthy (some "myapp") = false →
        r.module = pollModelClass.module) ∧
      ((none : Option String) = none →
        r.recordsClass = defaultRecordsClassName) :=
  register_records_attributes emptyRegistry pollModelClass
    (some "myapp") "history" none (by decide)

end SimpleHistory
